/-
Verification of the sandboxed WASM execution service.

The repository contains two server iterations:
  * src/src/main.rs          — the legacy hyper/wasmtime server ("Legacy" below):
    routes POST /log, POST /execute-wasm, GET /; execution inherits the host
    stdio and tries the `_start` export first, then a `main` export.
  * src/wasm_runner/src/main.rs — the current server ("WasmRunner" below):
    routes GET / and POST /execute-wasm only; execution captures stdout/stderr
    in per-request in-memory pipes and calls only the `_start` export.

External library behaviour (the wasmtime compiler/linker/runtime and the body
reader) is abstracted as oracle fields on the request: the embedding models the
control flow of the repository's own code around those calls.  Machine bytes
are modelled as `Nat` values (each in 0..255 on real inputs).
-/
import Mathlib

/-- HTTP method as matched by both routers: they only distinguish GET, POST and
everything else (the `_` arm in the Rust `match`). -/
inductive Method
  | GET
  | POST
  | otherMethod
deriving DecidableEq

/-- An HTTP response as produced by both services: a status code and a plain
text body (both servers only emit text/plain bodies). -/
structure HttpResponse where
  status : Nat
  body : String
deriving DecidableEq

/-- Mirror of `std::convert::Infallible`: the uninhabited error type of both
request handlers (`handle_request` and `router` return `Result<_, Infallible>`). -/
inductive Infallible : Type

/-- A UTF-8 continuation byte (0x80..0xBF). -/
def isCont (b : Nat) : Bool := decide (0x80 ≤ b ∧ b ≤ 0xBF)

/-- Lower bound of the first continuation byte after lead `b` (RFC 3629 ranges,
as enforced by Rust's `str::from_utf8` / `String::from_utf8_lossy`). -/
def contLo (b : Nat) : Nat := if b = 0xE0 then 0xA0 else if b = 0xF0 then 0x90 else 0x80

/-- Upper bound of the first continuation byte after lead `b`. -/
def contHi (b : Nat) : Nat := if b = 0xED then 0x9F else if b = 0xF4 then 0x8F else 0xBF

/-- Mirror of Rust `std::str::from_utf8` validity (used at src/src/main.rs:46):
true iff the byte sequence is well-formed UTF-8 (no overlong forms, no
surrogates, max U+10FFFF). -/
def utf8Valid (l : List Nat) : Bool :=
  match l with
  | [] => true
  | b :: rest =>
    if b ≤ 0x7F then utf8Valid rest
    else if 0xC2 ≤ b ∧ b ≤ 0xDF then
      match rest with
      | c1 :: r1 => isCont c1 && utf8Valid r1
      | [] => false
    else if 0xE0 ≤ b ∧ b ≤ 0xEF then
      match rest with
      | c1 :: c2 :: r2 =>
        decide (contLo b ≤ c1 ∧ c1 ≤ contHi b) && isCont c2 && utf8Valid r2
      | _ => false
    else if 0xF0 ≤ b ∧ b ≤ 0xF4 then
      match rest with
      | c1 :: c2 :: c3 :: r3 =>
        decide (contLo b ≤ c1 ∧ c1 ≤ contHi b) && isCont c2 && isCont c3 && utf8Valid r3
      | _ => false
    else false

/-- The replacement character U+FFFD used by lossy decoding. -/
def replChar : Char := Char.ofNat 0xFFFD

/-- One step of Rust's lossy UTF-8 decoding (`String::from_utf8_lossy`,
used at src/wasm_runner/src/main.rs:135-136): given the first byte and the
remaining bytes, produce the decoded character (or U+FFFD for a maximal invalid
subpart) and the not-yet-consumed suffix. -/
def utf8Step (b : Nat) (rest : List Nat) : Char × List Nat :=
  if b ≤ 0x7F then (Char.ofNat b, rest)
  else if 0xC2 ≤ b ∧ b ≤ 0xDF then
    match rest with
    | c1 :: r1 =>
      if isCont c1 then (Char.ofNat ((b - 0xC0) * 0x40 + (c1 - 0x80)), r1)
      else (replChar, c1 :: r1)
    | [] => (replChar, [])
  else if 0xE0 ≤ b ∧ b ≤ 0xEF then
    match rest with
    | c1 :: r1 =>
      if contLo b ≤ c1 ∧ c1 ≤ contHi b then
        match r1 with
        | c2 :: r2 =>
          if isCont c2 then
            (Char.ofNat (((b - 0xE0) * 0x40 + (c1 - 0x80)) * 0x40 + (c2 - 0x80)), r2)
          else (replChar, c2 :: r2)
        | [] => (replChar, [])
      else (replChar, c1 :: r1)
    | [] => (replChar, [])
  else if 0xF0 ≤ b ∧ b ≤ 0xF4 then
    match rest with
    | c1 :: r1 =>
      if contLo b ≤ c1 ∧ c1 ≤ contHi b then
        match r1 with
        | c2 :: r2 =>
          if isCont c2 then
            match r2 with
            | c3 :: r3 =>
              if isCont c3 then
                (Char.ofNat
                  ((((b - 0xF0) * 0x40 + (c1 - 0x80)) * 0x40 + (c2 - 0x80)) * 0x40
                    + (c3 - 0x80)), r3)
              else (replChar, c3 :: r3)
            | [] => (replChar, [])
          else (replChar, c2 :: r2)
        | [] => (replChar, [])
      else (replChar, c1 :: r1)
    | [] => (replChar, [])
  else (replChar, rest)

/-- `utf8Step` never consumes a negative amount: the unconsumed suffix is no
longer than the input suffix. -/
theorem utf8Step_length (b : Nat) (rest : List Nat) :
    (utf8Step b rest).2.length ≤ rest.length := by
  unfold utf8Step
  repeat' split
  all_goals simp_all
  all_goals omega

/-- The character stream of Rust's `String::from_utf8_lossy`. -/
def lossyDecodeChars (l : List Nat) : List Char :=
  match l with
  | [] => []
  | b :: rest => (utf8Step b rest).1 :: lossyDecodeChars (utf8Step b rest).2
termination_by l.length
decreasing_by
  simp only [List.length_cons]
  exact Nat.lt_succ_of_le (utf8Step_length b rest)

/-- Mirror of Rust `String::from_utf8_lossy(..).to_string()`. -/
def lossyDecode (l : List Nat) : String := String.mk (lossyDecodeChars l)

/-- Lossy decoding yields the empty string exactly on empty input (at least one
character is emitted per consumed lead byte). -/
theorem lossyDecode_eq_empty_iff (l : List Nat) : lossyDecode l = "" ↔ l = [] := by
  cases l with
  | nil => simp [lossyDecode, lossyDecodeChars]
  | cons b rest =>
    simp only [lossyDecode]
    rw [lossyDecodeChars]
    constructor
    · intro h
      have hdata := congrArg String.data h
      simp at hdata
    · intro h
      cases h

/-- Abstract description of what the external wasmtime runtime reports about a
compiled module and what running it does.  `hasStart` / `hasMain` state whether
`get_typed_func` succeeds for the export `_start : () -> ()` resp.
`main : () -> i32`; `startTrap` is `some msg` when calling `_start` traps with
message `msg`; `mainResult` is the result of calling `main` (`Except.error msg`
= trap, `Except.ok code` = normal return with code).  `stdoutWrites` /
`stderrWrites` are the bytes the guest writes to its stdio while the start
entry runs (visible to WasmRunner's capture pipes; under Legacy's inherited
stdio they go to the host console instead). -/
structure ModuleDesc where
  hasStart : Bool
  startTrap : Option String
  hasMain : Bool
  mainResult : Except String Int
  stdoutWrites : List Nat
  stderrWrites : List Nat

/-- The entry-point variants that exist in the code (the flat-export ABI of
both servers; the spec's ComponentRun variant has no implementation in the
repository). -/
inductive EntryPoint
  | legacyStart
  | legacyMain
deriving DecidableEq

/-- How a WASI context wires the guest's stdout/stderr: to the host process's
own stdio (`WasiCtxBuilder::inherit_stdio`, src/src/main.rs:116) or to two
fresh in-memory pipes with the given byte capacities
(`MemoryOutputPipe::new`, src/wasm_runner/src/main.rs:117-118). -/
inductive StdioWiring
  | hostInherited
  | pipes (stdoutCapacity stderrCapacity : Nat)
deriving DecidableEq

namespace Legacy

/-- The static usage text served on GET / (src/src/main.rs:9-29). -/
def usageText : String :=
  "HTTP Logger Server with WASM Execution\n\nUsage:\n  POST /log          - Log text message to server console\n  POST /execute-wasm - Execute WASM binary\n  GET  /             - Show this usage information\n\nExamples:\n  # Log a message\n  curl -X POST http://localhost:3000/log -d \"Hello from client!\"\n  \n  # Execute WASM binary\n  curl -X POST http://localhost:3000/execute-wasm \\\n       --data-binary @hello.wasm \\\n       -H \"Content-Type: application/wasm\"\n\nWASM Compilation Examples:\n  # C: clang --target=wasm32-wasi -o hello.wasm hello.c\n  # Rust: cargo build --target wasm32-wasi --release\n  # Go: GOOS=wasip1 GOARCH=wasm go build -o hello.wasm main.go\n"

/-- Stdio wiring of the legacy server's WASI context: `inherit_stdio()`
(src/src/main.rs:115-118) hands the guest the host process's own stdio. -/
def wasiWiring : StdioWiring := StdioWiring.hostInherited

/-- The entry the legacy `execute_wasm` selects, read off from its control flow
(src/src/main.rs:129-153): the `_start` export is tried first; only when it is
absent is the `main` export tried; otherwise no entry is resolved. -/
def resolveEntry (m : ModuleDesc) : Option EntryPoint :=
  if m.hasStart then some EntryPoint.legacyStart
  else if m.hasMain then some EntryPoint.legacyMain
  else none

/-- Mirror of `execute_wasm` (src/src/main.rs:109-154).  `compiled` is the
result of `Module::new` on the payload bytes; `linked` folds the results of
`wasmtime_wasi::add_to_linker` and `linker.instantiate` (both propagated with
`?`). -/
def execute_wasm (compiled : Except String ModuleDesc) (linked : Except String Unit) :
    Except String String :=
  match compiled with
  | .error e => .error e
  | .ok m =>
    match linked with
    | .error e => .error e
    | .ok _ =>
      if m.hasStart then
        match m.startTrap with
        | none => .ok "WASM _start function executed successfully"
        | some t => .ok ("WASM executed but ended with trap: " ++ t)
      else if m.hasMain then
        match m.mainResult with
        | .ok code => .ok ("WASM main function executed, returned: " ++ toString code)
        | .error t => .error ("WASM main function trap: " ++ t)
      else .error "No suitable entry function (_start or main) found in WASM module"

/-- An incoming request to the legacy server.  `body` is the outcome of
`hyper::body::to_bytes` (transport errors modelled as `Except.error`); `wasm`
and `linked` are the oracle results of the external wasmtime calls on that
body (only consulted on the /execute-wasm route). -/
structure LegacyRequest where
  method : Method
  path : String
  body : Except String (List Nat)
  wasm : Except String ModuleDesc
  linked : Except String Unit

/-- UTF-8 bytes of the constant text `println!` places in front of the logged
message (src/src/main.rs:58). -/
def logMarkBytes : List Nat := "[LOG] Received message: ".data.map Char.toNat

/-- Mirror of `handle_request` (src/src/main.rs:31-107).  The second component
is the list of messages the handler appends to the server's diagnostic stream
via the /log endpoint's `println!` (one entry per append, in order). -/
def handle_request (r : LegacyRequest) : HttpResponse × List (List Nat) :=
  if r.method = Method.POST ∧ r.path = "/log" then
    match r.body with
    | .error _ => ({ status := 400, body := "Failed to read request body" }, [])
    | .ok bs =>
      if utf8Valid bs then
        ({ status := 200, body := "Message logged successfully" }, [logMarkBytes ++ bs])
      else
        ({ status := 400, body := "Invalid UTF-8 in request body" }, [])
  else if r.method = Method.POST ∧ r.path = "/execute-wasm" then
    match r.body with
    | .error _ => ({ status := 400, body := "Failed to read WASM binary" }, [])
    | .ok _ =>
      match execute_wasm r.wasm r.linked with
      | .ok out =>
        ({ status := 200, body := "WASM executed successfully\n\nResult: " ++ out }, [])
      | .error e =>
        ({ status := 400, body := "WASM execution failed: " ++ e }, [])
  else if r.method = Method.GET ∧ r.path = "/" then
    ({ status := 200, body := usageText }, [])
  else
    ({ status := 404, body := "Not Found" }, [])

/-- The handler as the service sees it: the Rust signature is
`Result<Response<Body>, Infallible>` and every return site wraps `Ok`. -/
def handle_request_service (r : LegacyRequest) :
    Except Infallible (HttpResponse × List (List Nat)) :=
  .ok (handle_request r)

end Legacy

namespace WasmRunner

/-- The wasmtime `Config` knobs that `handle_execute_wasm` sets
(src/wasm_runner/src/main.rs:94-108). -/
structure WasmtimeConfig where
  async_support : Bool
  memory_reservation : Nat
  memory_reservation_for_growth : Nat
  memory_guard_size : Nat
  guard_before_linear_memory : Bool
  memory_may_move : Bool
  wasm_memory64 : Bool
deriving DecidableEq

/-- The configuration value `handle_execute_wasm` builds on every invocation:
1 MiB memory reservation, 16 MiB growth reservation, no guard pages, memory
relocation allowed (src/wasm_runner/src/main.rs:94-108). -/
def requestConfig : WasmtimeConfig :=
  { async_support := true
    memory_reservation := 1 * 1024 * 1024
    memory_reservation_for_growth := 16 * 1024 * 1024
    memory_guard_size := 0
    guard_before_linear_memory := false
    memory_may_move := true
    wasm_memory64 := false }

/-- Wasmtime configurations constructed by the server's `main` before serving
requests: `main` (src/wasm_runner/src/main.rs:20-53) builds the listener and
spawns connection tasks but constructs no `Config`, `Engine` or limits. -/
def mainStartupConfigs : List WasmtimeConfig := []

/-- An incoming request to the wasm_runner server.  `body` is the outcome of
`req.into_body().collect()`; `compiled` is the oracle result of
`Module::from_binary` on those bytes; `linked` folds `add_to_linker_async` and
`linker.instantiate_async` (all propagated with `?`). -/
structure RunnerRequest where
  method : Method
  path : String
  body : Except String (List Nat)
  compiled : Except String ModuleDesc
  linked : Except String Unit

/-- The `Config` values constructed while handling one request: none when the
body read fails (the `?` at src/wasm_runner/src/main.rs:92 returns before
`Config::new`), otherwise exactly the one fresh `requestConfig`
(src/wasm_runner/src/main.rs:94). -/
def configsConstructed (r : RunnerRequest) : List WasmtimeConfig :=
  match r.body with
  | .error _ => []
  | .ok _ => [requestConfig]

/-- Capacity passed to both `MemoryOutputPipe::new` calls
(src/wasm_runner/src/main.rs:117-118). -/
def pipeCapacity : Nat := 1 * 1024 * 1024

/-- Stdio wiring of the wasm_runner WASI context: two fresh per-request
in-memory pipes of capacity 1 MiB each (src/wasm_runner/src/main.rs:117-127). -/
def wasiWiring : StdioWiring := StdioWiring.pipes pipeCapacity pipeCapacity

/-- Models the error text the wasmtime runtime produces when
`get_typed_func::<(), ()>(.., "_start")` fails because the export is missing or
has the wrong type (src/wasm_runner/src/main.rs:131); its exact content is
immaterial to the theorems below. -/
def startNotFoundMsg : String := "failed to find function export _start"

/-- Mirror of the success formatting at src/wasm_runner/src/main.rs:138:
the plain stdout text when stderr is empty, otherwise the two delimited
sections. -/
def marshalOutput (out err : String) : String :=
  if err = "" then out
  else "-- stdout --\n" ++ out ++ "\n\n-- stderr --\n" ++ err

/-- What the capture stage hands back for one execution: the accumulated bytes
of each pipe, plus whether each pipe hit its capacity.  The repository reads
back only the contents (`stdout_reader.contents()` / `stderr_reader.contents()`
at src/wasm_runner/src/main.rs:135-136); no truncation status is consulted. -/
structure CaptureResult where
  stdoutContents : List Nat
  stderrContents : List Nat
  stdoutTruncated : Bool
  stderrTruncated : Bool

/-- The response text the handler builds from a capture result
(src/wasm_runner/src/main.rs:135-138): a function of the two contents fields
only. -/
def responseOfCapture (c : CaptureResult) : String :=
  marshalOutput (lossyDecode c.stdoutContents) (lossyDecode c.stderrContents)

/-- Mirror of `handle_execute_wasm` (src/wasm_runner/src/main.rs:91-139):
read body, build config/engine, compile, link/instantiate, look up the typed
`_start` export, call it, then marshal the captured pipe contents.  Every
failure (including a runtime trap during the call) is propagated with `?`. -/
def handle_execute_wasm (r : RunnerRequest) : Except String String :=
  match r.body with
  | .error e => .error e
  | .ok _ =>
    match r.compiled with
    | .error e => .error e
    | .ok m =>
      match r.linked with
      | .error e => .error e
      | .ok _ =>
        if m.hasStart then
          match m.startTrap with
          | some t => .error t
          | none =>
            .ok (marshalOutput (lossyDecode m.stdoutWrites) (lossyDecode m.stderrWrites))
        else .error startNotFoundMsg

/-- Mirror of `ok_text` (src/wasm_runner/src/main.rs:75-81). -/
def ok_text (s : String) : HttpResponse := { status := 200, body := s }

/-- Mirror of `err_text` (src/wasm_runner/src/main.rs:83-89). -/
def err_text (code : Nat) (s : String) : HttpResponse := { status := code, body := s }

/-- Mirror of `router` (src/wasm_runner/src/main.rs:55-73). -/
def router (r : RunnerRequest) : HttpResponse :=
  if r.method = Method.GET ∧ r.path = "/" then
    ok_text "OK: POST /execute-wasm (body = WASI Core Module)"
  else if r.method = Method.POST ∧ r.path = "/execute-wasm" then
    match handle_execute_wasm r with
    | .ok t => ok_text t
    | .error e => err_text 400 ("WASM error: " ++ e)
  else err_text 404 "not found"

/-- The router as the service sees it: the Rust signature is
`Result<Response<Full<Bytes>>, Infallible>` and the single return site wraps
`Ok(resp)` (src/wasm_runner/src/main.rs:72). -/
def router_service (r : RunnerRequest) : Except Infallible HttpResponse :=
  .ok (router r)

end WasmRunner

/-- Bytes the guest of a request writes to stdout, read off the request's
compiled-module oracle (none when compilation fails: no guest ever runs). -/
def moduleStdout (r : WasmRunner.RunnerRequest) : List Nat :=
  match r.compiled with
  | .ok m => m.stdoutWrites
  | .error _ => []

/-- Small-step state of one in-flight /execute-wasm task in the wasm_runner
server.  Each task owns its request, its private stdout capture buffer and its
eventual response — mirroring that every variable of `handle_execute_wasm` is
function-local and nothing is shared between the tasks spawned per connection
(src/wasm_runner/src/main.rs:33, 91-139). -/
structure ExecTask where
  req : WasmRunner.RunnerRequest
  pendingOut : List Nat
  outBuf : List Nat
  resp : Option HttpResponse

/-- Initial state of a task: its own request, no output captured yet, no
response produced yet. -/
def initTask (r : WasmRunner.RunnerRequest) : ExecTask :=
  { req := r, pendingOut := moduleStdout r, outBuf := [], resp := none }

/-- One scheduling step of a task: append the next guest write to the task's
own buffer, or, once all writes are done, produce the task's response via the
actual router; a finished task is left unchanged. -/
def taskStep (t : ExecTask) : ExecTask :=
  match t.resp with
  | some _ => t
  | none =>
    match t.pendingOut with
    | b :: rest => { t with pendingOut := rest, outBuf := t.outBuf ++ [b] }
    | [] => { t with resp := some (WasmRunner.router t.req) }

/-- Run two concurrent tasks under an arbitrary interleaving: `true` steps the
first task, `false` the second. -/
def runSched : List Bool → ExecTask × ExecTask → ExecTask × ExecTask
  | [], s => s
  | c :: rest, (a, b) =>
    if c then runSched rest (taskStep a, b) else runSched rest (a, taskStep b)

/-- Number of steps a schedule gives to the first task. -/
def trueCount : List Bool → Nat
  | [] => 0
  | true :: rest => trueCount rest + 1
  | false :: rest => trueCount rest

/-- Number of steps a schedule gives to the second task. -/
def falseCount : List Bool → Nat
  | [] => 0
  | true :: rest => falseCount rest
  | false :: rest => falseCount rest + 1

/-- Stepping never changes which request a task belongs to. -/
theorem taskStep_req (t : ExecTask) : (taskStep t).req = t.req := by
  unfold taskStep
  repeat' split
  all_goals rfl

/-- After any number of steps, a task still belongs to its own request. -/
theorem iterate_taskStep_req (n : Nat) (r : WasmRunner.RunnerRequest) :
    (taskStep^[n] (initTask r)).req = r := by
  induction n with
  | zero => rfl
  | succ n ih => rw [Function.iterate_succ_apply', taskStep_req, ih]

/-- A response observed after one step was either already there or is the
router's response to the task's own request. -/
theorem taskStep_resp (t : ExecTask) (x : HttpResponse)
    (h : (taskStep t).resp = some x) :
    t.resp = some x ∨ x = WasmRunner.router t.req := by
  unfold taskStep at h
  split at h
  · exact Or.inl h
  · split at h
    · exact Or.inl h
    · simp only at h
      exact Or.inr (Option.some.inj h).symm

/-- Any response a solo task ever produces is the router's response to its own
request. -/
theorem iterate_taskStep_resp (n : Nat) (r : WasmRunner.RunnerRequest)
    (x : HttpResponse) (h : (taskStep^[n] (initTask r)).resp = some x) :
    x = WasmRunner.router r := by
  induction n with
  | zero => simp [initTask] at h
  | succ n ih =>
    rw [Function.iterate_succ_apply'] at h
    rcases taskStep_resp _ _ h with h' | h'
    · exact ih h'
    · rw [h', iterate_taskStep_req]

/-- The first task's state under any interleaving equals its solo run for the
number of steps the schedule grants it: the second task never influences it. -/
theorem runSched_fst (sched : List Bool) (a b : ExecTask) :
    (runSched sched (a, b)).1 = taskStep^[trueCount sched] a := by
  induction sched generalizing a b with
  | nil => rfl
  | cons c rest ih =>
    cases c
    · simpa [runSched, trueCount] using ih a (taskStep b)
    · rw [show runSched (true :: rest) (a, b) = runSched rest (taskStep a, b) from rfl,
        show trueCount (true :: rest) = trueCount rest + 1 from rfl,
        Function.iterate_succ_apply]
      exact ih (taskStep a) b

/-- The second task's state under any interleaving equals its solo run for the
number of steps the schedule grants it. -/
theorem runSched_snd (sched : List Bool) (a b : ExecTask) :
    (runSched sched (a, b)).2 = taskStep^[falseCount sched] b := by
  induction sched generalizing a b with
  | nil => rfl
  | cons c rest ih =>
    cases c
    · rw [show runSched (false :: rest) (a, b) = runSched rest (a, taskStep b) from rfl,
        show falseCount (false :: rest) = falseCount rest + 1 from rfl,
        Function.iterate_succ_apply]
      exact ih a (taskStep b)
    · simpa [runSched, falseCount] using ih (taskStep a) b

/-- A module exporting only the main-style entry (`main : () -> i32` returning
7), with no start-style export. -/
def mainOnlyModule : ModuleDesc :=
  { hasStart := false
    startTrap := none
    hasMain := true
    mainResult := Except.ok 7
    stdoutWrites := []
    stderrWrites := [] }

/-- A wasm_runner /execute-wasm request carrying the main-only module, with the
body read, compilation and instantiation all succeeding. -/
def mainOnlyRequest : WasmRunner.RunnerRequest :=
  { method := Method.POST
    path := "/execute-wasm"
    body := Except.ok [0]
    compiled := Except.ok mainOnlyModule
    linked := Except.ok () }

/-- A module exporting both a start-style and a main-style entry. -/
def bothEntriesModule : ModuleDesc :=
  { hasStart := true
    startTrap := none
    hasMain := true
    mainResult := Except.ok 3
    stdoutWrites := []
    stderrWrites := [] }

/-- C1 counterexample: under the wasm_runner server, a well-formed payload that
exports only the main-style entry is not executed via it — entry lookup for
`_start` fails and the request is rejected with a 400 error, with no return
code in the response. -/
theorem runner_main_only_payload_rejected :
    WasmRunner.router mainOnlyRequest
      = { status := 400, body := "WASM error: " ++ WasmRunner.startNotFoundMsg } := rfl

/-- C1 (amended): in the legacy server (src/src/main.rs), entry resolution
tries the start-style export first and selects it whenever present; only when
it is absent is the main-style export tried, and main's return code is then
reported in the response; with neither export, execution fails with the
entry-resolution message.  The wasm_runner server instead tries only the
start-style export: any payload without it — including one exporting only the
main-style entry — is rejected with a 400 error. -/
theorem entry_resolution_amended :
    (∀ m : ModuleDesc, m.hasStart = true →
      Legacy.resolveEntry m = some EntryPoint.legacyStart)
  ∧ (∀ m : ModuleDesc, m.hasStart = false → m.hasMain = true →
      Legacy.resolveEntry m = some EntryPoint.legacyMain)
  ∧ (∀ m : ModuleDesc, m.hasStart = false → m.hasMain = false →
      Legacy.resolveEntry m = none ∧
      Legacy.execute_wasm (Except.ok m) (Except.ok ())
        = Except.error "No suitable entry function (_start or main) found in WASM module")
  ∧ (∀ (m : ModuleDesc) (code : Int), m.hasStart = false → m.hasMain = true →
      m.mainResult = Except.ok code →
      Legacy.execute_wasm (Except.ok m) (Except.ok ())
        = Except.ok ("WASM main function executed, returned: " ++ toString code))
  ∧ (∀ (bs : List Nat) (m : ModuleDesc), m.hasStart = false →
      WasmRunner.router
        { method := Method.POST, path := "/execute-wasm", body := Except.ok bs
          compiled := Except.ok m, linked := Except.ok () }
        = { status := 400, body := "WASM error: " ++ WasmRunner.startNotFoundMsg }) := by
  refine ⟨?_, ?_, ?_, ?_, ?_⟩
  · intro m h
    simp [Legacy.resolveEntry, h]
  · intro m h1 h2
    simp [Legacy.resolveEntry, h1, h2]
  · intro m h1 h2
    exact ⟨by simp [Legacy.resolveEntry, h1, h2], by simp [Legacy.execute_wasm, h1, h2]⟩
  · intro m code h1 h2 h3
    simp [Legacy.execute_wasm, h1, h2, h3]
  · intro bs m h
    simp [WasmRunner.router, WasmRunner.handle_execute_wasm, WasmRunner.err_text, h]

/-- C1 witness: the amended claim instantiated on concrete modules — the
main-only module resolves to the main entry and reports return code 7 in the
legacy server; a module with both entries resolves to the start entry. -/
theorem entry_resolution_amended_witness :
    Legacy.resolveEntry mainOnlyModule = some EntryPoint.legacyMain
  ∧ Legacy.execute_wasm (Except.ok mainOnlyModule) (Except.ok ())
      = Except.ok ("WASM main function executed, returned: " ++ toString (7 : Int))
  ∧ Legacy.resolveEntry bothEntriesModule = some EntryPoint.legacyStart :=
  ⟨entry_resolution_amended.2.1 mainOnlyModule rfl rfl,
   entry_resolution_amended.2.2.2.1 mainOnlyModule 7 rfl rfl rfl,
   entry_resolution_amended.1 bothEntriesModule rfl⟩

/-- A module whose start-style entry traps at runtime after writing some
stdout. -/
def trapModule : ModuleDesc :=
  { hasStart := true
    startTrap := some "wasm trap: unreachable"
    hasMain := false
    mainResult := Except.error "unused"
    stdoutWrites := [104, 105]
    stderrWrites := [] }

/-- A wasm_runner /execute-wasm request carrying the trapping module. -/
def trapRequest : WasmRunner.RunnerRequest :=
  { method := Method.POST
    path := "/execute-wasm"
    body := Except.ok [0]
    compiled := Except.ok trapModule
    linked := Except.ok () }

/-- C2 counterexample: a payload that traps at runtime after instantiation is
answered by the wasm_runner server with HTTP 400 (the trap message, no
captured stdout) — not with HTTP 200. -/
theorem runner_trap_yields_400 :
    WasmRunner.router trapRequest
      = { status := 400, body := "WASM error: " ++ "wasm trap: unreachable" } := rfl

/-- C2 (amended): a runtime trap is reported as follows.  In the wasm_runner
server every trap during the start entry is propagated as an error and the
response is HTTP 400 carrying the trap message, with no captured stdout
included.  In the legacy server a trap in the start-style entry yields HTTP 200
with a trap indicator in the text (stdio is inherited by the host, so no guest
stdout appears in the response either), while a trap in the main-style entry
yields HTTP 400. -/
theorem trap_reporting_amended :
    (∀ (bs : List Nat) (m : ModuleDesc) (t : String),
      m.hasStart = true → m.startTrap = some t →
      WasmRunner.router
        { method := Method.POST, path := "/execute-wasm", body := Except.ok bs
          compiled := Except.ok m, linked := Except.ok () }
        = { status := 400, body := "WASM error: " ++ t })
  ∧ (∀ (bs : List Nat) (m : ModuleDesc) (t : String),
      m.hasStart = true → m.startTrap = some t →
      (Legacy.handle_request
        { method := Method.POST, path := "/execute-wasm", body := Except.ok bs
          wasm := Except.ok m, linked := Except.ok () }).1
        = { status := 200,
            body := "WASM executed successfully\n\nResult: "
              ++ ("WASM executed but ended with trap: " ++ t) })
  ∧ (∀ (bs : List Nat) (m : ModuleDesc) (t : String),
      m.hasStart = false → m.hasMain = true → m.mainResult = Except.error t →
      (Legacy.handle_request
        { method := Method.POST, path := "/execute-wasm", body := Except.ok bs
          wasm := Except.ok m, linked := Except.ok () }).1
        = { status := 400,
            body := "WASM execution failed: " ++ ("WASM main function trap: " ++ t) }) := by
  refine ⟨?_, ?_, ?_⟩
  · intro bs m t h1 h2
    simp [WasmRunner.router, WasmRunner.handle_execute_wasm, WasmRunner.err_text, h1, h2]
  · intro bs m t h1 h2
    simp [Legacy.handle_request, Legacy.execute_wasm, h1, h2]
  · intro bs m t h1 h2 h3
    simp [Legacy.handle_request, Legacy.execute_wasm, h1, h2, h3]

/-- C2 witness: the amended claim instantiated on the concrete trapping module
for both servers. -/
theorem trap_reporting_amended_witness :
    WasmRunner.router trapRequest
      = { status := 400, body := "WASM error: " ++ "wasm trap: unreachable" }
  ∧ (Legacy.handle_request
      { method := Method.POST, path := "/execute-wasm", body := Except.ok [0]
        wasm := Except.ok trapModule, linked := Except.ok () }).1
      = { status := 200,
          body := "WASM executed successfully\n\nResult: "
            ++ ("WASM executed but ended with trap: " ++ "wasm trap: unreachable") } :=
  ⟨trap_reporting_amended.1 [0] trapModule "wasm trap: unreachable" rfl rfl,
   trap_reporting_amended.2.1 [0] trapModule "wasm trap: unreachable" rfl rfl⟩

/-- C3 counterexample: the legacy server's capability set wires the guest's
stdio to the host process's own stdio (`inherit_stdio`, src/src/main.rs:116) —
not to per-request capture buffers. -/
theorem legacy_inherits_host_stdio :
    Legacy.wasiWiring = StdioWiring.hostInherited := rfl

/-- C3 (amended): in the wasm_runner server every execution request wires the
guest's stdout and stderr to two fresh per-request in-memory pipes of capacity
1 MiB each, starting empty; the legacy server instead inherits the host
process's own stdio for guest I/O. -/
theorem stdio_wiring_amended :
    WasmRunner.wasiWiring
      = StdioWiring.pipes WasmRunner.pipeCapacity WasmRunner.pipeCapacity
  ∧ Legacy.wasiWiring = StdioWiring.hostInherited
  ∧ (∀ r : WasmRunner.RunnerRequest,
      (initTask r).outBuf = [] ∧ (initTask r).resp = none) :=
  ⟨rfl, rfl, fun _ => ⟨rfl, rfl⟩⟩

/-- C4 (confirmed): a payload whose bytes fail compilation is answered with
HTTP 400 by both servers, with the compilation-stage message passed through in
the body; the handlers are pure functions of the request (deterministic) and
the response is never 200. -/
theorem invalid_bytecode_yields_400 :
    (∀ (bs : List Nat) (msg : String) (lk : Except String Unit),
      WasmRunner.router
        { method := Method.POST, path := "/execute-wasm", body := Except.ok bs
          compiled := Except.error msg, linked := lk }
        = { status := 400, body := "WASM error: " ++ msg })
  ∧ (∀ (bs : List Nat) (msg : String) (lk : Except String Unit),
      (Legacy.handle_request
        { method := Method.POST, path := "/execute-wasm", body := Except.ok bs
          wasm := Except.error msg, linked := lk }).1
        = { status := 400, body := "WASM execution failed: " ++ msg }) := by
  refine ⟨?_, ?_⟩
  · intro bs msg lk
    simp [WasmRunner.router, WasmRunner.handle_execute_wasm, WasmRunner.err_text]
  · intro bs msg lk
    simp [Legacy.handle_request, Legacy.execute_wasm]

/-- C4 witness: the confirmed claim instantiated on a concrete malformed
payload in both servers. -/
theorem invalid_bytecode_yields_400_witness :
    WasmRunner.router
      { method := Method.POST, path := "/execute-wasm", body := Except.ok [0, 1]
        compiled := Except.error "bad magic", linked := Except.error "unused" }
      = { status := 400, body := "WASM error: " ++ "bad magic" }
  ∧ (Legacy.handle_request
      { method := Method.POST, path := "/execute-wasm", body := Except.ok [0, 1]
        wasm := Except.error "bad magic", linked := Except.error "unused" }).1
      = { status := 400, body := "WASM execution failed: " ++ "bad magic" } :=
  ⟨invalid_bytecode_yields_400.1 [0, 1] "bad magic" (Except.error "unused"),
   invalid_bytecode_yields_400.2 [0, 1] "bad magic" (Except.error "unused")⟩

/-- A wasm_runner request whose body reads successfully (oracle results for the
later stages are irrelevant here). -/
def bodyOkRequest : WasmRunner.RunnerRequest :=
  { method := Method.POST
    path := "/execute-wasm"
    body := Except.ok []
    compiled := Except.error "unused"
    linked := Except.error "unused" }

/-- C5 counterexample: the wasm_runner server constructs no sandbox limits at
process start, and the handling of a single concrete request constructs its own
fresh `Config` — contradicting construct-once-at-startup sharing. -/
theorem limits_constructed_per_request :
    WasmRunner.mainStartupConfigs = []
  ∧ WasmRunner.configsConstructed bodyOkRequest = [WasmRunner.requestConfig] :=
  ⟨rfl, rfl⟩

/-- C5 (amended): the sandbox limit values are fixed constants (1 MiB memory
reservation, 16 MiB growth reservation, zero guard size, relocation allowed),
identical for every execution; but nothing is constructed at process start and
nothing is shared — every request whose body is read constructs its own fresh
`Config` carrying those limits. -/
theorem sandbox_limits_amended :
    WasmRunner.mainStartupConfigs = []
  ∧ WasmRunner.requestConfig.memory_reservation = 1048576
  ∧ WasmRunner.requestConfig.memory_reservation_for_growth = 16777216
  ∧ WasmRunner.requestConfig.memory_guard_size = 0
  ∧ WasmRunner.requestConfig.memory_may_move = true
  ∧ (∀ (r : WasmRunner.RunnerRequest) (bs : List Nat), r.body = Except.ok bs →
      WasmRunner.configsConstructed r = [WasmRunner.requestConfig]) := by
  refine ⟨rfl, rfl, rfl, rfl, rfl, ?_⟩
  intro r bs h
  simp [WasmRunner.configsConstructed, h]

/-- C5 witness: the amended claim instantiated on a concrete request. -/
theorem sandbox_limits_amended_witness :
    WasmRunner.configsConstructed bodyOkRequest = [WasmRunner.requestConfig] :=
  sandbox_limits_amended.2.2.2.2.2 bodyOkRequest [] rfl

/-- C6 counterexample: a capture that hit its capacity (truncated flag set)
produces byte-for-byte the same response text as an untruncated capture with
the same contents — the concrete response is the bare output with no truncation
flag anywhere. -/
theorem truncation_not_flagged_in_response :
    WasmRunner.responseOfCapture
      { stdoutContents := [104, 105], stderrContents := []
        stdoutTruncated := true, stderrTruncated := false }
      = WasmRunner.responseOfCapture
          { stdoutContents := [104, 105], stderrContents := []
            stdoutTruncated := false, stderrTruncated := false }
  ∧ WasmRunner.responseOfCapture
      { stdoutContents := [104, 105], stderrContents := []
        stdoutTruncated := true, stderrTruncated := false } = "hi" := by
  refine ⟨rfl, ?_⟩
  simp [WasmRunner.responseOfCapture, WasmRunner.marshalOutput, lossyDecode,
    lossyDecodeChars, utf8Step, isCont, contLo, contHi, replChar]

/-- C6 (amended): the per-request capture pipes are created with the fixed
capacity 1 MiB (1048576 bytes); the execution report is computed solely from
the captured byte contents — it is invariant under the pipes' truncation
status and carries no truncated flag. -/
theorem capture_capacity_amended :
    WasmRunner.pipeCapacity = 1048576
  ∧ (∀ c c' : WasmRunner.CaptureResult,
      c.stdoutContents = c'.stdoutContents → c.stderrContents = c'.stderrContents →
      WasmRunner.responseOfCapture c = WasmRunner.responseOfCapture c')
  ∧ (∀ (bs : List Nat) (m : ModuleDesc) (b1 b2 : Bool),
      m.hasStart = true → m.startTrap = none →
      (WasmRunner.router
        { method := Method.POST, path := "/execute-wasm", body := Except.ok bs
          compiled := Except.ok m, linked := Except.ok () }).body
        = WasmRunner.responseOfCapture
            { stdoutContents := m.stdoutWrites, stderrContents := m.stderrWrites
              stdoutTruncated := b1, stderrTruncated := b2 }) := by
  refine ⟨rfl, ?_, ?_⟩
  · intro c c' h1 h2
    simp [WasmRunner.responseOfCapture, h1, h2]
  · intro bs m b1 b2 h1 h2
    simp [WasmRunner.router, WasmRunner.handle_execute_wasm, WasmRunner.ok_text,
      WasmRunner.responseOfCapture, h1, h2]

/-- C6 witness: the amended claim instantiated on concrete captures and a
concrete completed execution. -/
theorem capture_capacity_amended_witness :
    WasmRunner.responseOfCapture
      { stdoutContents := [97], stderrContents := []
        stdoutTruncated := true, stderrTruncated := true }
      = WasmRunner.responseOfCapture
          { stdoutContents := [97], stderrContents := []
            stdoutTruncated := false, stderrTruncated := false }
  ∧ (WasmRunner.router
      { method := Method.POST, path := "/execute-wasm", body := Except.ok [0]
        compiled := Except.ok bothEntriesModule, linked := Except.ok () }).body
      = WasmRunner.responseOfCapture
          { stdoutContents := bothEntriesModule.stdoutWrites
            stderrContents := bothEntriesModule.stderrWrites
            stdoutTruncated := true, stderrTruncated := false } :=
  ⟨capture_capacity_amended.2.1 _ _ rfl rfl,
   capture_capacity_amended.2.2 [0] bothEntriesModule true false rfl rfl⟩

/-- C7 (confirmed): for any interleaving of two concurrent /execute-wasm
executions, each task's final state equals its solo run for the number of steps
the schedule grants it — neither task observes the other's buffers, request or
entry resolution — and any response a task produces is exactly the router's
response to its own request, so each response contains only its own payload's
captured output. -/
theorem concurrent_isolation (sched : List Bool) (p1 p2 : WasmRunner.RunnerRequest) :
    (runSched sched (initTask p1, initTask p2)).1 = taskStep^[trueCount sched] (initTask p1)
  ∧ (runSched sched (initTask p1, initTask p2)).2 = taskStep^[falseCount sched] (initTask p2)
  ∧ (∀ x : HttpResponse,
      ((runSched sched (initTask p1, initTask p2)).1).resp = some x →
      x = WasmRunner.router p1)
  ∧ (∀ x : HttpResponse,
      ((runSched sched (initTask p1, initTask p2)).2).resp = some x →
      x = WasmRunner.router p2) := by
  refine ⟨runSched_fst sched _ _, runSched_snd sched _ _, ?_, ?_⟩
  · intro x h
    rw [runSched_fst] at h
    exact iterate_taskStep_resp _ p1 x h
  · intro x h
    rw [runSched_snd] at h
    exact iterate_taskStep_resp _ p2 x h

/-- First of two concrete concurrent requests with distinct payloads. -/
def isoRequestA : WasmRunner.RunnerRequest :=
  { method := Method.POST
    path := "/execute-wasm"
    body := Except.ok [1]
    compiled := Except.error "payload A"
    linked := Except.error "unused" }

/-- Second of two concrete concurrent requests with distinct payloads. -/
def isoRequestB : WasmRunner.RunnerRequest :=
  { method := Method.POST
    path := "/execute-wasm"
    body := Except.ok [2]
    compiled := Except.error "payload B"
    linked := Except.error "unused" }

/-- C7 witness: the isolation theorem instantiated on a concrete interleaving
of two concrete requests, with the first task's produced response discharged
concretely. -/
theorem concurrent_isolation_witness :
    (runSched [true, false] (initTask isoRequestA, initTask isoRequestB)).1
      = taskStep^[trueCount [true, false]] (initTask isoRequestA)
  ∧ WasmRunner.router isoRequestA = WasmRunner.router isoRequestA :=
  ⟨(concurrent_isolation [true, false] isoRequestA isoRequestB).1,
   (concurrent_isolation [true, false] isoRequestA isoRequestB).2.2.1
     (WasmRunner.router isoRequestA) rfl⟩

/-- A wasm_runner request aimed at the /log route with a valid-text body. -/
def validLogRequest : WasmRunner.RunnerRequest :=
  { method := Method.POST
    path := "/log"
    body := Except.ok [104, 105]
    compiled := Except.error "unused"
    linked := Except.error "unused" }

/-- C8 counterexample: the wasm_runner server has no /log route — a POST /log
request whose body is valid text is answered 404, not 200, and no diagnostic
append happens. -/
theorem runner_log_route_not_found :
    utf8Valid [104, 105] = true
  ∧ WasmRunner.router validLogRequest = { status := 404, body := "not found" } :=
  ⟨rfl, rfl⟩

/-- C8 (amended): in the legacy server (src/src/main.rs), POST /log behaves
exactly as claimed — a body that decodes as valid text yields HTTP 200 and the
exact text is appended (once) to the diagnostic stream, a body that does not
decode yields HTTP 400 with nothing appended.  The wasm_runner server has no
/log route: every POST /log request is answered 404. -/
theorem log_endpoint_amended :
    (∀ (bs : List Nat) (w : Except String ModuleDesc) (lk : Except String Unit),
      utf8Valid bs = true →
      Legacy.handle_request
        { method := Method.POST, path := "/log", body := Except.ok bs
          wasm := w, linked := lk }
        = ({ status := 200, body := "Message logged successfully" },
           [Legacy.logMarkBytes ++ bs]))
  ∧ (∀ (bs : List Nat) (w : Except String ModuleDesc) (lk : Except String Unit),
      utf8Valid bs = false →
      Legacy.handle_request
        { method := Method.POST, path := "/log", body := Except.ok bs
          wasm := w, linked := lk }
        = ({ status := 400, body := "Invalid UTF-8 in request body" }, []))
  ∧ (∀ (b : Except String (List Nat)) (w : Except String ModuleDesc)
        (lk : Except String Unit),
      WasmRunner.router
        { method := Method.POST, path := "/log", body := b, compiled := w, linked := lk }
        = { status := 404, body := "not found" }) := by
  refine ⟨?_, ?_, ?_⟩
  · intro bs w lk h
    simp [Legacy.handle_request, h]
  · intro bs w lk h
    simp [Legacy.handle_request, h]
  · intro b w lk
    simp [WasmRunner.router, WasmRunner.err_text]

/-- C8 witness: the amended claim instantiated on a concrete valid body, a
concrete invalid body, and the wasm_runner 404. -/
theorem log_endpoint_amended_witness :
    Legacy.handle_request
      { method := Method.POST, path := "/log", body := Except.ok [104, 105]
        wasm := Except.error "unused", linked := Except.error "unused" }
      = ({ status := 200, body := "Message logged successfully" },
         [Legacy.logMarkBytes ++ [104, 105]])
  ∧ Legacy.handle_request
      { method := Method.POST, path := "/log", body := Except.ok [255]
        wasm := Except.error "unused", linked := Except.error "unused" }
      = ({ status := 400, body := "Invalid UTF-8 in request body" }, [])
  ∧ WasmRunner.router validLogRequest = { status := 404, body := "not found" } :=
  ⟨log_endpoint_amended.1 [104, 105] (Except.error "unused") (Except.error "unused") rfl,
   log_endpoint_amended.2.1 [255] (Except.error "unused") (Except.error "unused") rfl,
   log_endpoint_amended.2.2 (Except.ok [104, 105]) (Except.error "unused")
     (Except.error "unused")⟩

/-- C9 (confirmed): an execution that completes normally in the wasm_runner
server is answered 200 with a body equal to the marshalled capture: it always
contains the lossily decoded stdout as a contiguous part, it is exactly the
decoded stdout when the captured stderr is empty, and exactly the two
delimited stdout/stderr sections when the captured stderr is non-empty. -/
theorem completed_response_format :
    ∀ (bs : List Nat) (m : ModuleDesc),
      m.hasStart = true → m.startTrap = none →
      (WasmRunner.router
        { method := Method.POST, path := "/execute-wasm", body := Except.ok bs
          compiled := Except.ok m, linked := Except.ok () }).status = 200
    ∧ (WasmRunner.router
        { method := Method.POST, path := "/execute-wasm", body := Except.ok bs
          compiled := Except.ok m, linked := Except.ok () }).body
        = WasmRunner.marshalOutput (lossyDecode m.stdoutWrites) (lossyDecode m.stderrWrites)
    ∧ (lossyDecode m.stdoutWrites).data <:+:
        (WasmRunner.router
          { method := Method.POST, path := "/execute-wasm", body := Except.ok bs
            compiled := Except.ok m, linked := Except.ok () }).body.data
    ∧ (m.stderrWrites = [] →
        (WasmRunner.router
          { method := Method.POST, path := "/execute-wasm", body := Except.ok bs
            compiled := Except.ok m, linked := Except.ok () }).body
          = lossyDecode m.stdoutWrites)
    ∧ (m.stderrWrites ≠ [] →
        (WasmRunner.router
          { method := Method.POST, path := "/execute-wasm", body := Except.ok bs
            compiled := Except.ok m, linked := Except.ok () }).body
          = "-- stdout --\n" ++ lossyDecode m.stdoutWrites
              ++ "\n\n-- stderr --\n" ++ lossyDecode m.stderrWrites) := by
  intro bs m h1 h2
  have hbody : WasmRunner.router
      { method := Method.POST, path := "/execute-wasm", body := Except.ok bs
        compiled := Except.ok m, linked := Except.ok () }
      = WasmRunner.ok_text
          (WasmRunner.marshalOutput (lossyDecode m.stdoutWrites)
            (lossyDecode m.stderrWrites)) := by
    simp [WasmRunner.router, WasmRunner.handle_execute_wasm, h1, h2]
  refine ⟨by rw [hbody]; rfl, by rw [hbody]; rfl, ?_, ?_, ?_⟩
  · rw [hbody]
    show (lossyDecode m.stdoutWrites).data <:+:
      (WasmRunner.marshalOutput (lossyDecode m.stdoutWrites)
        (lossyDecode m.stderrWrites)).data
    unfold WasmRunner.marshalOutput
    split
    · exact List.infix_refl _
    · exact ⟨("-- stdout --\n").data, ("\n\n-- stderr --\n").data
        ++ (lossyDecode m.stderrWrites).data, by simp [String.data_append]⟩
  · intro h
    have he : lossyDecode m.stderrWrites = "" := (lossyDecode_eq_empty_iff _).mpr h
    rw [hbody]
    simp [WasmRunner.marshalOutput, WasmRunner.ok_text, he]
  · intro h
    have he : ¬ lossyDecode m.stderrWrites = "" := by
      simpa [lossyDecode_eq_empty_iff] using h
    rw [hbody]
    simp [WasmRunner.marshalOutput, WasmRunner.ok_text, he]

/-- A module that completes normally, writing "hi" to stdout and "!" to
stderr. -/
def completedModule : ModuleDesc :=
  { hasStart := true
    startTrap := none
    hasMain := false
    mainResult := Except.error "unused"
    stdoutWrites := [104, 105]
    stderrWrites := [33] }

/-- C9 witness: the response-format theorem instantiated on the concrete
completed module with non-empty stderr. -/
theorem completed_response_format_witness :
    (WasmRunner.router
      { method := Method.POST, path := "/execute-wasm", body := Except.ok [0]
        compiled := Except.ok completedModule, linked := Except.ok () }).status = 200
  ∧ (WasmRunner.router
      { method := Method.POST, path := "/execute-wasm", body := Except.ok [0]
        compiled := Except.ok completedModule, linked := Except.ok () }).body
      = "-- stdout --\n" ++ lossyDecode completedModule.stdoutWrites
          ++ "\n\n-- stderr --\n" ++ lossyDecode completedModule.stderrWrites :=
  ⟨(completed_response_format [0] completedModule rfl rfl).1,
   (completed_response_format [0] completedModule rfl rfl).2.2.2.2 (by decide)⟩

/-- C10 (confirmed): both request handlers answer every request — any method,
path and body — with exactly one HTTP response wrapped in `Except.ok` over the
uninhabited service error type, and every response status is 200, 400 or
404. -/
theorem service_layer_total :
    (∀ r : Legacy.LegacyRequest, ∃ p, Legacy.handle_request_service r = Except.ok p)
  ∧ (∀ r : Legacy.LegacyRequest,
      (Legacy.handle_request r).1.status = 200 ∨ (Legacy.handle_request r).1.status = 400
        ∨ (Legacy.handle_request r).1.status = 404)
  ∧ (∀ r : WasmRunner.RunnerRequest, ∃ resp, WasmRunner.router_service r = Except.ok resp)
  ∧ (∀ r : WasmRunner.RunnerRequest,
      (WasmRunner.router r).status = 200 ∨ (WasmRunner.router r).status = 400
        ∨ (WasmRunner.router r).status = 404) := by
  refine ⟨fun r => ⟨_, rfl⟩, fun r => ?_, fun r => ⟨_, rfl⟩, fun r => ?_⟩
  · unfold Legacy.handle_request
    repeat' split
    all_goals simp
  · unfold WasmRunner.router WasmRunner.ok_text WasmRunner.err_text
    repeat' split
    all_goals simp

/-- C3 witness: the amended stdio-wiring claim instantiated on a concrete
request: its capture buffer starts empty and no response exists yet. -/
theorem stdio_wiring_amended_witness :
    (initTask bodyOkRequest).outBuf = [] ∧ (initTask bodyOkRequest).resp = none :=
  stdio_wiring_amended.2.2 bodyOkRequest

/-- C10 witness: totality instantiated on a concrete unknown-route request for
each server. -/
theorem service_layer_total_witness :
    (∃ p, Legacy.handle_request_service
      { method := Method.otherMethod, path := "/nowhere", body := Except.error "x"
        wasm := Except.error "x", linked := Except.error "x" } = Except.ok p)
  ∧ ((WasmRunner.router validLogRequest).status = 200
      ∨ (WasmRunner.router validLogRequest).status = 400
      ∨ (WasmRunner.router validLogRequest).status = 404) :=
  ⟨service_layer_total.1 _, service_layer_total.2.2.2 validLogRequest⟩
